import Mathlib

/-!
Verification of the backup orchestration script
`server-scripts/backup/python/overengineered-backup-script.py`.

The Python program is shallowly embedded: every external effect
(subprocess execution, the wall clock, signal delivery) is supplied by an
explicit environment (oracle) value, and each Python function of interest
becomes a Lean function over that environment.  Exceptions are modelled by
`Except`, mutable module state by explicit state passing.  Wall-clock time
is modelled in whole seconds: the explicit `time.sleep` calls and the
per-attempt subprocess timeouts are counted, the latency of an external
command that completes before its timeout is supplied by the environment.
-/

namespace BackupScript

/-! ## Configuration constants (source lines 156-226) -/

def DOCKER_ENABLE_STOP_START : Bool := true
def DOCKER_STOP_TIMEOUT : Nat := 2
def DOCKER_START_DELAY : Nat := 30
def DOCKER_FORCE_STOP_TIMEOUT : Nat := 30
def DOCKER_SHUTDOWN_OVERALL_TIMEOUT : Nat := 300
def DOCKER_SHUTDOWN_MAX_RETRIES : Nat := 3
def DOCKER_SHUTDOWN_RETRY_DELAY : Nat := 10
def DOCKER_VERIFY_SHUTDOWN_INTERVAL : Nat := 2
def DOCKER_KILL_WAIT_TIME : Nat := 5
def ENABLE_RCLONE_UPLOAD : Bool := true
def RCLONE_MAX_RETRIES : Nat := 5
def RCLONE_RETRY_DELAY : Nat := 30
def RCLONE_RETRY_MAX_DELAY : Nat := 300
def RCLONE_OVERALL_TIMEOUT : Nat := 7200

/-! ## Exceptions

`Exc` models the Python exceptions that can cross the function boundaries
relevant to the claims.  `keyboardInterrupt` is raised by
`check_shutdown_requested` (source line 390); `timeoutExpired` models
`subprocess.TimeoutExpired` escaping an uncaught `subprocess.run` call;
`operationTimeout` models the `OperationTimeout` wrapper exception.
`FileExistsError` can only arise from `acquire_lock`, never from the stage
bodies, so it is kept out of `Exc` and modelled by the lock outcome.
-/

inductive Exc where
  | backupCreationError (msg : String)
  | backupVerificationError (msg : String)
  | keyboardInterrupt
  | operationTimeout
  | timeoutExpired
  | otherError (msg : String)
deriving DecidableEq, Repr

def Exc.message : Exc → String
  | .backupCreationError m => m
  | .backupVerificationError m => m
  | .keyboardInterrupt => ("Shutdown signal received")
  | .operationTimeout => ("Operation timed out")
  | .timeoutExpired => ("Command timed out")
  | .otherError m => m

/-! ## Rclone retry engine (source lines 935-1038)

`run_rclone_sync_with_retry` runs `_execute_rclone_sync` up to
`RCLONE_MAX_RETRIES` times.  One attempt either finishes with an exit code
(taking `dur` seconds, where the caller guarantees `dur` is at most the
per-attempt subprocess timeout `RCLONE_OVERALL_TIMEOUT`), hits the
per-attempt `subprocess.run` timeout (consuming the full
`RCLONE_OVERALL_TIMEOUT` seconds and raising `OperationTimeout`, caught by
the loop at source line 996), or raises some other exception (caught at
source line 1000).  `shutdownAt i` tells whether the cooperative shutdown
flag is observed by `check_shutdown_requested()` at the top of attempt `i`
(source line 970), in which case `KeyboardInterrupt` propagates.
-/

inductive RcloneAttempt where
  | exits (code : Int) (dur : Nat)
  | timedOut
  | raises (msg : String) (dur : Nat)
deriving DecidableEq, Repr

structure RcloneEnv where
  shutdownAt : Nat → Bool
  attempt : Nat → RcloneAttempt

inductive SyncStatus where
  | success
  | failed
  | skipped
deriving DecidableEq, Repr

structure RcloneResult where
  status : SyncStatus
  attempts : Nat
  elapsed : Nat
deriving DecidableEq, Repr

/-- Model of `_is_retryable_rclone_error` (source lines 1022-1038): rclone exit
codes 1 (usage error), 3 (directory not found), 4 (file not found) and
7 (fatal error) are non-retryable; everything else is retryable. -/
def is_retryable_rclone_error (exit_code : Int) : Bool :=
  !(exit_code == 1 || exit_code == 3 || exit_code == 4 || exit_code == 7)

/-- The `for attempt in range(1, RCLONE_MAX_RETRIES + 1)` loop of
`run_rclone_sync_with_retry` (source lines 969-1019).  `fuel` is the
number of loop iterations left, `attempt` the 1-based attempt counter,
`delay` the current `retry_delay` state, `elapsed` the seconds spent so
far.  Falling out of the loop returns the all-retries-exhausted summary
(source lines 1004-1019) whose `attempts` field is `RCLONE_MAX_RETRIES`. -/
def rcloneLoop (env : RcloneEnv) : Nat → Nat → Nat → Nat → Except Exc RcloneResult
  | 0, _, _, elapsed =>
      .ok { status := .failed, attempts := RCLONE_MAX_RETRIES, elapsed := elapsed }
  | fuel + 1, attempt, delay, elapsed =>
      if env.shutdownAt attempt then
        .error .keyboardInterrupt
      else
        let elapsed := if attempt > 1 then elapsed + delay else elapsed
        let delay := if attempt > 1 then min (delay * 2) RCLONE_RETRY_MAX_DELAY else delay
        match env.attempt attempt with
        | .exits code dur =>
            let elapsed := elapsed + dur
            if code == 0 then
              .ok { status := .success, attempts := attempt, elapsed := elapsed }
            else if !is_retryable_rclone_error code then
              .ok { status := .failed, attempts := attempt, elapsed := elapsed }
            else
              rcloneLoop env fuel (attempt + 1) delay elapsed
        | .timedOut =>
            rcloneLoop env fuel (attempt + 1) delay (elapsed + RCLONE_OVERALL_TIMEOUT)
        | .raises _ dur =>
            rcloneLoop env fuel (attempt + 1) delay (elapsed + dur)

/-- Model of `run_rclone_sync_with_retry` (source lines 935-1019).  When rclone
upload is disabled or in dry-run mode the call is skipped before the loop
(source lines 939-945). -/
def run_rclone_sync_with_retry (env : RcloneEnv) (dry_run : Bool) : Except Exc RcloneResult :=
  if !ENABLE_RCLONE_UPLOAD || dry_run then
    .ok { status := .skipped, attempts := 0, elapsed := 0 }
  else
    rcloneLoop env RCLONE_MAX_RETRIES 1 RCLONE_RETRY_DELAY 0

/-! ## Structured sync-log parsing (source lines 1109-1173)

`_execute_rclone_sync` scans the line-delimited JSON log after the rclone
process finished.  JSON values are modelled by `Jv` (numbers as integers:
the inspected fields are counters).  A raw log line either does not start
with a brace / fails to parse (`junk`), parses to a non-dict value
(`nonDict`), or parses to a JSON object given by its field list
(`record`); `jget` models `dict.get`.
-/

inductive Jv where
  | str (s : String)
  | num (n : Int)
  | dict (fields : List (String × Jv))
  | arr
  | bool (b : Bool)
  | null

def jget (fields : List (String × Jv)) (key : String) : Option Jv :=
  (fields.find? (fun p => p.1 == key)).map (fun p => p.2)

/-- Python comparison `log_entry.get("level") == "error"`: true exactly
when the field is present and is the string `error`. -/
def isErrorLevel (fields : List (String × Jv)) : Bool :=
  match jget fields ("level") with
  | some (.str s) => s == ("error")
  | _ => false

inductive RcLine where
  | junk
  | nonDict (v : Jv)
  | record (fields : List (String × Jv))

/-- The body of the `for line in f` loop (source lines 1114-1133): a
record whose `stats` field is a dict replaces the captured aggregate;
otherwise (`elif`) a record whose `level` equals the string `error`
appends its `msg` to the error list when that `msg` is a string. -/
def parseStep (acc : Option (List (String × Jv)) × List String) : RcLine → Option (List (String × Jv)) × List String
  | .junk => acc
  | .nonDict _ => acc
  | .record fields =>
      match jget fields ("stats") with
      | some (.dict d) => (some d, acc.2)
      | _ =>
          if isErrorLevel fields then
            match jget fields ("msg") with
            | some (.str m) => (acc.1, acc.2 ++ [m])
            | _ => acc
          else acc

/-- The whole scanning loop: `final_stats` starts as the absent aggregate
(`{}` in the source, modelled as `none`), `error_lines` starts empty. -/
def parseRcloneLog (lines : List RcLine) : Option (List (String × Jv)) × List String :=
  lines.foldl parseStep (none, [])

/-- The `last_error` entry of the result dict (source line 1172):
`"\n".join(error_lines[-3:]) if error_lines else "None"`. -/
def lastErrorText (error_lines : List String) : String :=
  if error_lines.isEmpty then ("None")
  else String.intercalate ("\n") (error_lines.drop (error_lines.length - 3))

/-- Extraction of one counter from the captured aggregate (source lines
1143-1159): `final_stats.get(key, dflt)` followed by the numeric
`isinstance` guard that falls back to `dflt`. -/
def extractStat (stats : Option (List (String × Jv))) (key : String) (dflt : Int) : Int :=
  match stats with
  | none => dflt
  | some d =>
      match jget d key with
      | some (.num n) => n
      | _ => dflt

/-- The statistics part of the dict returned by `_execute_rclone_sync`
(source lines 1161-1173). -/
structure RcParse where
  transfers : Int
  bytesTransferred : Int
  errorsCount : Int
  checksCount : Int
  totalBytes : Int
  lastError : String
deriving DecidableEq, Repr

def executeRcloneParse (lines : List RcLine) : RcParse :=
  let parsed := parseRcloneLog lines
  let errs := parsed.2
  { transfers := extractStat parsed.1 ("transfers") 0
    bytesTransferred := extractStat parsed.1 ("bytes") 0
    errorsCount := extractStat parsed.1 ("errors") (Int.ofNat errs.length)
    checksCount := extractStat parsed.1 ("checks") 0
    totalBytes := extractStat parsed.1 ("totalBytes") 0
    lastError := lastErrorText errs }

/-- Declarative view used by the amended C8: the error message a line
contributes, if any. -/
def errOf : RcLine → Option String
  | .junk => none
  | .nonDict _ => none
  | .record fields =>
      match jget fields ("stats") with
      | some (.dict _) => none
      | _ =>
          if isErrorLevel fields then
            match jget fields ("msg") with
            | some (.str m) => some m
            | _ => none
          else none

/-- Declarative view used by the amended C8: the aggregate a line
contributes, if any. -/
def statsOf : RcLine → Option (List (String × Jv))
  | .junk => none
  | .nonDict _ => none
  | .record fields =>
      match jget fields ("stats") with
      | some (.dict d) => some d
      | _ => none

/-! ## Docker workload control (source lines 1242-1521)

External docker commands are recorded in a trace.  The environment
supplies: the outcome of every `docker ps -q` enumeration (indexed by the
number of enumerations performed so far; an `Except.error` models
`subprocess.TimeoutExpired` escaping `get_running_container_ids`, which
catches nothing — source lines 1257-1268), the exit status of every
`docker compose` invocation, the outcome of `docker stop` / `docker kill`
(only logged by the source), the `docker inspect` name lookup, and the
cooperative-shutdown flag observed at the top of every retry iteration.
Command latency is modelled as zero; the explicit `time.sleep` calls are
counted in `elapsed`.
-/

inductive DockerCmd where
  | dockerPs
  | composeStop (file : String)
  | composeStart (file : String)
  | dockerStop (ids : List String)
  | dockerKill (ids : List String)
deriving DecidableEq, Repr

inductive RunOutcome where
  | exits (code : Int)
  | timedOut
deriving DecidableEq, Repr

structure DockerEnv where
  shutdownAt : Nat → Bool
  ps : Nat → Except Exc (List String)
  fileExists : String → Bool
  composeResult : String → RunOutcome
  stopOutcome : Nat → RunOutcome
  killOutcome : Nat → RunOutcome
  names : String → Option String

/-- Display identity of one container (source line 1290 together with the
`names.get(cid[:12], cid[:12])` lookups): the inspected name when
available, otherwise the id truncated to 12 characters. -/
def displayName (env : DockerEnv) (cid : String) : String :=
  match env.names cid with
  | some n => n
  | none => (cid.take 12)

def containerList (env : DockerEnv) (ids : List String) : String :=
  String.intercalate (", ") (ids.map (displayName env))

/-- Model of `manage_docker_services` for `action == "stop"` (source lines
1296-1332): for each existing compose file issue `docker compose -f file
down`, log a failure, and sleep `DOCKER_STOP_TIMEOUT` seconds.  Returns
`all_successful`, the issued commands and the seconds slept.  Missing
files are skipped (`continue` precedes the sleep). -/
def manage_docker_services_stop (env : DockerEnv) (compose_files : List String) (dry_run : Bool) : Bool × List DockerCmd × Nat :=
  if !DOCKER_ENABLE_STOP_START || dry_run then (true, [], 0)
  else
    compose_files.foldl
      (fun acc file =>
        if env.fileExists file then
          let ok := match env.composeResult file with
            | .exits code => acc.1 && (code == 0)
            | .timedOut => false
          (ok, acc.2.1 ++ [DockerCmd.composeStop file], acc.2.2 + DOCKER_STOP_TIMEOUT)
        else acc)
      (true, [], 0)

/-- Model of `force_stop_containers` (source lines 1335-1362): an empty id list and
dry-run mode issue nothing; otherwise one `docker stop -t timeout ids...`
is issued and a non-zero exit or a command timeout is only logged.  The
function always returns `True`. -/
def force_stop_containers (dry_run : Bool) (outcome : RunOutcome) (container_ids : List String) (timeout : Nat) : Bool × List DockerCmd :=
  if container_ids.isEmpty then (true, [])
  else if dry_run then (true, [])
  else
    let _ := timeout
    let _ := outcome
    (true, [DockerCmd.dockerStop container_ids])

/-- Model of `force_kill_containers` (source lines 1365-1392): same shape with
`docker kill`. -/
def force_kill_containers (dry_run : Bool) (outcome : RunOutcome) (container_ids : List String) : Bool × List DockerCmd :=
  if container_ids.isEmpty then (true, [])
  else if dry_run then (true, [])
  else
    let _ := outcome
    (true, [DockerCmd.dockerKill container_ids])

/-- Result of `ensure_all_containers_stopped`: whether everything is
stopped, the final surviving ids (empty on success), the warnings the
function appended to the global `backup_state` (returned here as pending
strings, prefixed by the caller-side `add_warning`), and the command
trace. -/
structure ShutdownResult where
  stopped : Bool
  surviving : List String
  pendingWarnings : List String
  trace : List DockerCmd

/-- Outcome of the `for retry in range(DOCKER_SHUTDOWN_MAX_RETRIES)` loop
body: the loop either returned `True` early or fell through (by `break`
on the overall timeout or by exhausting the retries). -/
inductive ShutdownLoopExit where
  | stoppedOk
  | fellThrough
deriving DecidableEq, Repr

/-- The retry loop of `ensure_all_containers_stopped` (source lines
1424-1491).  State: `fuel` iterations left, `retry` the 0-based iteration
counter, `k` the number of `docker ps` enumerations made so far,
`elapsed` the seconds slept so far, `trace` the commands issued so far. -/
def ensureLoop (env : DockerEnv) (compose_files : List String) (dry_run : Bool) (timeout : Nat) :
    Nat → Nat → Nat → Nat → List DockerCmd → Except Exc (ShutdownLoopExit × Nat × Nat × List DockerCmd)
  | 0, _, k, elapsed, trace => .ok (.fellThrough, k, elapsed, trace)
  | fuel + 1, retry, k, elapsed, trace =>
      if env.shutdownAt retry then .error .keyboardInterrupt
      else
        let elapsed := if retry > 0 then elapsed + DOCKER_SHUTDOWN_RETRY_DELAY else elapsed
        if elapsed > DOCKER_SHUTDOWN_OVERALL_TIMEOUT then .ok (.fellThrough, k, elapsed, trace)
        else
          match env.ps k with
          | .error e => .error e
          | .ok initial_containers =>
              let k := k + 1
              let trace := trace ++ [DockerCmd.dockerPs]
              if initial_containers.isEmpty then .ok (.stoppedOk, k, elapsed, trace)
              else
                let stage1 := manage_docker_services_stop env compose_files dry_run
                let trace := trace ++ stage1.2.1
                let elapsed := elapsed + stage1.2.2
                match env.ps k with
                | .error e => .error e
                | .ok remaining =>
                    let k := k + 1
                    let trace := trace ++ [DockerCmd.dockerPs]
                    if remaining.isEmpty then .ok (.stoppedOk, k, elapsed, trace)
                    else
                      let stage2 := force_stop_containers dry_run (env.stopOutcome retry) remaining timeout
                      let trace := trace ++ stage2.2
                      let elapsed := elapsed + DOCKER_VERIFY_SHUTDOWN_INTERVAL
                      match env.ps k with
                      | .error e => .error e
                      | .ok remaining2 =>
                          let k := k + 1
                          let trace := trace ++ [DockerCmd.dockerPs]
                          if remaining2.isEmpty then .ok (.stoppedOk, k, elapsed, trace)
                          else
                            let stage3 := force_kill_containers dry_run (env.killOutcome retry) remaining2
                            let trace := trace ++ stage3.2
                            let elapsed := elapsed + DOCKER_KILL_WAIT_TIME
                            match env.ps k with
                            | .error e => .error e
                            | .ok final_remaining =>
                                let k := k + 1
                                let trace := trace ++ [DockerCmd.dockerPs]
                                if final_remaining.isEmpty then .ok (.stoppedOk, k, elapsed, trace)
                                else
                                  ensureLoop env compose_files dry_run timeout fuel (retry + 1) k elapsed trace

/-- Model of `ensure_all_containers_stopped` (source lines 1395-1521).  After the
loop ends without success a final enumeration decides the outcome: if
containers remain a single warning naming them is recorded and `False` is
returned; otherwise `True`. -/
def ensure_all_containers_stopped (env : DockerEnv) (compose_files : List String) (dry_run : Bool) (timeout : Nat := DOCKER_FORCE_STOP_TIMEOUT) : Except Exc ShutdownResult :=
  if !DOCKER_ENABLE_STOP_START then .ok { stopped := true, surviving := [], pendingWarnings := [], trace := [] }
  else if dry_run then .ok { stopped := true, surviving := [], pendingWarnings := [], trace := [] }
  else
    match ensureLoop env compose_files dry_run timeout DOCKER_SHUTDOWN_MAX_RETRIES 0 0 0 [] with
    | .error e => .error e
    | .ok (.stoppedOk, _, _, trace) =>
        .ok { stopped := true, surviving := [], pendingWarnings := [], trace := trace }
    | .ok (.fellThrough, k, _, trace) =>
        match env.ps k with
        | .error e => .error e
        | .ok final_remaining =>
            let trace := trace ++ [DockerCmd.dockerPs]
            if final_remaining.isEmpty then
              .ok { stopped := true, surviving := [], pendingWarnings := [], trace := trace }
            else
              .ok { stopped := false, surviving := final_remaining,
                    pendingWarnings := [("Containers still running: ") ++ containerList env final_remaining],
                    trace := trace }

/-! ## Backup state (source lines 295-341) -/

inductive BackupStage where
  | INIT
  | PREFLIGHT
  | MAINTENANCE_WINDOW
  | CONTAINER_SHUTDOWN
  | BACKUP_CREATION
  | BACKUP_VERIFICATION
  | CONTAINER_RESTART_PLEX
  | RCLONE_SYNC
  | CONTAINER_RESTART_ALL
  | CLEANUP
  | COMPLETE
deriving DecidableEq, Repr

def BackupStage.label : BackupStage → String
  | .INIT => ("INIT")
  | .PREFLIGHT => ("PREFLIGHT")
  | .MAINTENANCE_WINDOW => ("MAINTENANCE_WINDOW")
  | .CONTAINER_SHUTDOWN => ("CONTAINER_SHUTDOWN")
  | .BACKUP_CREATION => ("BACKUP_CREATION")
  | .BACKUP_VERIFICATION => ("BACKUP_VERIFICATION")
  | .CONTAINER_RESTART_PLEX => ("CONTAINER_RESTART_PLEX")
  | .RCLONE_SYNC => ("RCLONE_SYNC")
  | .CONTAINER_RESTART_ALL => ("CONTAINER_RESTART_ALL")
  | .CLEANUP => ("CLEANUP")
  | .COMPLETE => ("COMPLETE")

/-- Model of `BackupState` (source lines 311-341).  The run start timestamp and the
backup file path carry no claim-relevant behaviour and are elided. -/
structure BackupState where
  stage : BackupStage := .INIT
  containers_stopped : Bool := false
  plex_started : Bool := false
  other_services_started : Bool := false
  maintenance_window_id : Option Int := none
  backup_created : Bool := false
  backup_verified : Bool := false
  rclone_completed : Bool := false
  errors : List String := []
  warnings : List String := []
deriving DecidableEq, Repr

def BackupState.init : BackupState := {}

/-- Model of `BackupState.add_error` (source line 328): the message is prefixed by
the current stage name. -/
def addError (msg : String) (st : BackupState) : BackupState :=
  { st with errors := st.errors ++ [("[") ++ st.stage.label ++ ("] ") ++ msg] }

/-- Model of `BackupState.add_warning` (source line 331). -/
def addWarning (msg : String) (st : BackupState) : BackupState :=
  { st with warnings := st.warnings ++ [("[") ++ st.stage.label ++ ("] ") ++ msg] }

def addWarnings (msgs : List String) (st : BackupState) : BackupState :=
  msgs.foldl (fun s m => addWarning m s) st

def setStage (s : BackupStage) (st : BackupState) : BackupState :=
  { st with stage := s }

def setMaintenance (v : Option Int) (st : BackupState) : BackupState :=
  { st with maintenance_window_id := v }

def setContainersStopped (b : Bool) (st : BackupState) : BackupState :=
  { st with containers_stopped := b }

def markCreated (st : BackupState) : BackupState :=
  { st with backup_created := true }

def markVerified (st : BackupState) : BackupState :=
  { st with backup_verified := true }

def markPlexStarted (st : BackupState) : BackupState :=
  { st with plex_started := true }

def markOtherStarted (st : BackupState) : BackupState :=
  { st with other_services_started := true }

def markRcloneCompleted (st : BackupState) : BackupState :=
  { st with rclone_completed := true }

/-- Flag ordering for the C9 invariant: every boolean flag that is true in
`a` is still true in `b`. -/
def FlagLe (a b : BackupState) : Prop :=
  (a.containers_stopped = true → b.containers_stopped = true) ∧
  (a.plex_started = true → b.plex_started = true) ∧
  (a.other_services_started = true → b.other_services_started = true) ∧
  (a.backup_created = true → b.backup_created = true) ∧
  (a.backup_verified = true → b.backup_verified = true) ∧
  (a.rclone_completed = true → b.rclone_completed = true)

instance (a b : BackupState) : Decidable (FlagLe a b) := by
  unfold FlagLe; infer_instance

/-- A run is tracked together with the full history of the intermediate
states, most recent first; every mutation of `backup_state` goes through
`Trk.push`. -/
structure Trk where
  st : BackupState
  hist : List BackupState

def Trk.start : Trk := { st := BackupState.init, hist := [BackupState.init] }

def Trk.push (t : Trk) (f : BackupState → BackupState) : Trk :=
  { st := f t.st, hist := f t.st :: t.hist }

/-- Stages visited during a run: read off the state history. -/
def Trk.stages (t : Trk) : List BackupStage :=
  t.hist.map (fun s => s.stage)

/-! ## The orchestrator `main` (source lines 1917-2143)

The environment supplies: the lock outcome, whether the pre-flight checks
pass (`pre_flight_checks` calls `sys.exit(1)` itself on failure), the
maintenance-window handle, the discovered compose files, and the outcome
of every stage call.  Outcomes of callees defined in this file
(`ensure_all_containers_stopped`, `run_rclone_sync_with_retry`) enter
`main` through the environment as well; their own behaviour is proved
separately against their defining environments.  `checkShutdown1/2/3` are
the three `check_shutdown_requested()` polls at source lines 1976, 2002
and 2015.  The `finally` block's only raising operation is the
`get_running_container_ids` call at line 2116, supplied as `finalPs`; an
error there is caught by the `except` at line 2123, which triggers the
emergency restart.
-/

inductive LockOutcome where
  | acquired
  | heldFresh
deriving DecidableEq, Repr

structure RcSummary where
  status : SyncStatus
  lastError : String

structure MainEnv where
  lock : LockOutcome
  preflightOk : Bool
  maintenanceId : Option Int
  plexCompose : List String
  otherCompose : List String
  shutdownRes : Except Exc (Bool × List String)
  checkShutdown1 : Bool
  createRes : Except Exc Bool
  plexStartOk : Bool
  checkShutdown2 : Bool
  verifyRes : Except Exc Bool
  checkShutdown3 : Bool
  rcloneRes : Except Exc RcSummary
  finalPlexStartOk : Bool
  finalOtherStartOk : Bool
  finalPs : Except Exc (List String)

/-- How the `try` body of `main` ended: normal completion carrying the
computed `success` value (source line 2073), an exception unwinding out of
the body, the `FileExistsError` of a held lock, or a `sys.exit` performed
inside the body (`pre_flight_checks`). -/
inductive TryResult where
  | completed (success : Bool)
  | raised (e : Exc)
  | lockHeld
  | exited

/-- Computation `success = backup_state.backup_created and not
backup_state.has_critical_errors` (source line 2073). -/
def finishTry (t : Trk) : Trk × TryResult :=
  (t, .completed (t.st.backup_created && t.st.errors.isEmpty))

/-- Source lines 2015-2073: the last `check_shutdown_requested()`, the
RCLONE_SYNC stage (run only when upload is enabled and the archive was
created; a failed summary is converted to a `RunState` error), and the
success computation. -/
def syncStage (env : MainEnv) (t : Trk) : Trk × TryResult :=
  if env.checkShutdown3 then (t, .raised .keyboardInterrupt)
  else
    let t := t.push (setStage .RCLONE_SYNC)
    if ENABLE_RCLONE_UPLOAD && t.st.backup_created then
      match env.rcloneRes with
      | .error e => (t, .raised e)
      | .ok summary =>
          match summary.status with
          | .success => finishTry (t.push markRcloneCompleted)
          | .failed => finishTry (t.push (addError (("Rclone sync failed: ") ++ summary.lastError)))
          | .skipped => finishTry t
    else finishTry t

/-- Source lines 2002-2013: the second `check_shutdown_requested()` and
the BACKUP_VERIFICATION stage, whose `except BackupVerificationError`
handler records the error and lets the run continue with the sync
stage; any other exception from the stage propagates. -/
def verifyStage (env : MainEnv) (t : Trk) : Trk × TryResult :=
  if env.checkShutdown2 then (t, .raised .keyboardInterrupt)
  else
    let t := t.push (setStage .BACKUP_VERIFICATION)
    match env.verifyRes with
    | .error (.backupVerificationError m) => syncStage env (t.push (addError m))
    | .error e => (t, .raised e)
    | .ok verified => syncStage env (if verified then t.push markVerified else t)

/-- Source lines 1978-2000: the BACKUP_CREATION stage, whose
`except BackupCreationError` handler records the error and re-raises,
and the CONTAINER_RESTART_PLEX stage. -/
def createStage (env : MainEnv) (t : Trk) : Trk × TryResult :=
  let t := t.push (setStage .BACKUP_CREATION)
  match env.createRes with
  | .error (.backupCreationError m) =>
      (t.push (addError m), .raised (.backupCreationError m))
  | .error e => (t, .raised e)
  | .ok created =>
      let t := if created then t.push markCreated else t
      let t := t.push (setStage .CONTAINER_RESTART_PLEX)
      let t := if !env.plexCompose.isEmpty && env.plexStartOk then t.push markPlexStarted else t
      verifyStage env t

/-- Source lines 1966-1976: the CONTAINER_SHUTDOWN stage — note the
absence of any `try`/`except` around it in `main` — followed by the first
`check_shutdown_requested()`. -/
def shutdownStage (env : MainEnv) (t : Trk) : Trk × TryResult :=
  let t := t.push (setStage .CONTAINER_SHUTDOWN)
  match env.shutdownRes with
  | .error e => (t, .raised e)
  | .ok shutdown =>
      let t := t.push (addWarnings shutdown.2)
      let t := t.push (setContainersStopped shutdown.1)
      if env.checkShutdown1 then (t, .raised .keyboardInterrupt)
      else createStage env t

/-- The `try` body of `main` (source lines 1948-2073): lock acquisition,
PREFLIGHT (whose failure is a `sys.exit(1)` inside `pre_flight_checks`),
MAINTENANCE_WINDOW, then the staged pipeline above. -/
def tryBody (env : MainEnv) (t : Trk) : Trk × TryResult :=
  match env.lock with
  | .heldFresh => (t, .lockHeld)
  | .acquired =>
      let t := t.push (setStage .PREFLIGHT)
      if !env.preflightOk then (t, .exited)
      else
        let t := t.push (setStage .MAINTENANCE_WINDOW)
        let t := t.push (setMaintenance env.maintenanceId)
        shutdownStage env t

/-- The three `except` clauses of `main` (source lines 2075-2090):
`KeyboardInterrupt` records an error; a held lock exits with code 1 (the
`sys.exit(1)` it performs is superseded by the one at the end of
`finally`); any other `Exception` records an `Unexpected error`. -/
def handleTop (t : Trk) : TryResult → Trk × Bool
  | .completed success => (t, success)
  | .raised .keyboardInterrupt => (t.push (addError ("Script interrupted")), false)
  | .raised e => (t.push (addError (("Unexpected error: ") ++ e.message)), false)
  | .lockHeld => (t, false)
  | .exited => (t, false)

/-- Observable finalization actions, in program order; the process exit is
the last event. -/
inductive FinalEvent where
  | restartPlex
  | restartOther
  | checkRunning (n : Nat)
  | emergencyRestart
  | removeMaintenance
  | notifyFinal
  | exitProcess (code : Nat)
deriving DecidableEq, Repr

/-- The `finally` block of `main` (source lines 2092-2143): restart Plex
when not yet started, restart the other services, enumerate the running
containers and fall back to `emergency_container_restart` when none run
(or when the restart block raised), remove the maintenance window, send
the final notification and exit with `0 if success else 1`. -/
def finalize (env : MainEnv) (t : Trk) (success : Bool) : Trk × List FinalEvent × Nat :=
  let t := t.push (setStage .CONTAINER_RESTART_ALL)
  let restart :=
    if DOCKER_ENABLE_STOP_START then
      let step1 :=
        if !t.st.plex_started && !env.plexCompose.isEmpty then
          ((if env.finalPlexStartOk then t.push markPlexStarted else t), [FinalEvent.restartPlex])
        else (t, [])
      let step2 :=
        if !env.otherCompose.isEmpty then
          ((if env.finalOtherStartOk then step1.1.push markOtherStarted else step1.1),
            step1.2 ++ [FinalEvent.restartOther])
        else step1
      match env.finalPs with
      | .error _ => (step2.1, step2.2 ++ [FinalEvent.emergencyRestart])
      | .ok running =>
          (step2.1, step2.2 ++ [FinalEvent.checkRunning running.length] ++
            (if running.isEmpty then [FinalEvent.emergencyRestart] else []))
    else (t, [])
  let t := restart.1.push (setStage .CLEANUP)
  let events := restart.2 ++
    (if t.st.maintenance_window_id.isSome then [FinalEvent.removeMaintenance] else []) ++
    [FinalEvent.notifyFinal]
  let t := t.push (setStage .COMPLETE)
  let code := if success then 0 else 1
  (t, events ++ [FinalEvent.exitProcess code], code)

structure MainResult where
  trk : Trk
  events : List FinalEvent
  exitCode : Nat

/-- Model of `main` (source lines 1917-2143). -/
def mainRun (env : MainEnv) : MainResult :=
  let body := tryBody env Trk.start
  let handled := handleTop body.1 body.2
  let fin := finalize env handled.1 handled.2
  { trk := fin.1, events := fin.2.1, exitCode := fin.2.2 }

/-- Invariant of a tracked run: the state history (most recent first) is
a flag-monotone chain whose head is the current state. -/
def TrkOk (t : Trk) : Prop :=
  t.hist.Chain' (fun a b => FlagLe b a) ∧ t.hist.head? = some t.st

/-- Relation between a try-body outcome and the `success` computation of
source line 2073: a normal completion carries exactly
`backup_created and not has_critical_errors`, and the body can only end
in `lockHeld` or `exited` while no backup has been created. -/
def CompletedSpec : Trk × TryResult → Prop
  | (t, .completed s) => s = (t.st.backup_created && t.st.errors.isEmpty)
  | (t, .lockHeld) => t.st.backup_created = false
  | (t, .exited) => t.st.backup_created = false
  | (_, .raised _) => True

/-- An attempt outcome the retry loop does not short-circuit on: a
non-zero retryable exit code, a per-attempt timeout, or a generic
exception caught inside the loop. -/
def retryableOutcome (a : RcloneAttempt) : Prop :=
  (∃ c d, a = .exits c d ∧ c ≠ 0 ∧ is_retryable_rclone_error c = true) ∨
  a = .timedOut ∨ (∃ m d, a = .raises m d)

/-! ## Concrete environments used by counterexamples and witnesses -/

/-- Rclone run whose first attempt hits the per-attempt timeout and whose
second attempt succeeds instantly. -/
def rcEnvTimeoutFirst : RcloneEnv :=
  { shutdownAt := fun _ => false
    attempt := fun i => if i = 1 then .timedOut else .exits 0 0 }

/-- Rclone run that succeeds instantly on the first attempt. -/
def rcEnvInstant : RcloneEnv :=
  { shutdownAt := fun _ => false
    attempt := fun _ => .exits 0 0 }

/-- Rclone run whose first attempt fails with the fatal exit code 3. -/
def rcEnvFatalFirst : RcloneEnv :=
  { shutdownAt := fun _ => false
    attempt := fun _ => .exits 3 5 }

/-- Rclone run whose first attempt raises a generic exception and whose
second attempt succeeds. -/
def rcEnvRaisesFirst : RcloneEnv :=
  { shutdownAt := fun _ => false
    attempt := fun i => if i = 1 then .raises ("disk error") 4 else .exits 0 0 }

/-- Rclone run whose first attempt fails with the retryable exit code 5
and whose second attempt succeeds. -/
def rcEnvRetryFirst : RcloneEnv :=
  { shutdownAt := fun _ => false
    attempt := fun i => if i = 1 then .exits 5 10 else .exits 0 0 }

/-- A log record carrying both a `stats` dict and an error level. -/
def c8Fields : List (String × Jv) :=
  [(("stats"), Jv.dict [(("transfers"), Jv.num 5)]),
   (("level"), Jv.str ("error")),
   (("msg"), Jv.str ("boom"))]

/-- A small log: one junk line, one plain error record. -/
def c8wLines : List RcLine :=
  [RcLine.junk,
   RcLine.record [(("level"), Jv.str ("error")), (("msg"), Jv.str ("io failure"))]]

/-- Docker environment whose enumerations always report no running
containers. -/
def dEnvIdle : DockerEnv :=
  { shutdownAt := fun _ => false
    ps := fun _ => .ok []
    fileExists := fun _ => true
    composeResult := fun _ => .exits 0
    stopOutcome := fun _ => .exits 0
    killOutcome := fun _ => .exits 0
    names := fun _ => none }

/-- Docker environment whose enumerations always report the same two
unkillable containers. -/
def dEnvStubborn : DockerEnv :=
  { dEnvIdle with ps := fun _ => .ok [("abc"), ("def0")] }

/-- Docker environment whose first enumeration raises
`subprocess.TimeoutExpired`. -/
def dEnvRaising : DockerEnv :=
  { dEnvIdle with ps := fun _ => .error .timeoutExpired }

/-- Main-run environment for a run where everything works until backup
creation raises `BackupCreationError`. -/
def mainEnvCreateFail : MainEnv :=
  { lock := .acquired
    preflightOk := true
    maintenanceId := some 7
    plexCompose := [("plex-compose")]
    otherCompose := [("other-compose")]
    shutdownRes := .ok (true, [])
    checkShutdown1 := false
    createRes := .error (.backupCreationError ("tar failed"))
    plexStartOk := true
    checkShutdown2 := false
    verifyRes := .ok true
    checkShutdown3 := false
    rcloneRes := .ok { status := .success, lastError := ("None") }
    finalPlexStartOk := true
    finalOtherStartOk := true
    finalPs := .ok [("c1")] }

/-- Main-run environment where the container-shutdown stage raises a
`subprocess.TimeoutExpired` out of `get_running_container_ids`. -/
def mainEnvShutdownRaise : MainEnv :=
  { mainEnvCreateFail with
    shutdownRes := .error .timeoutExpired
    createRes := .ok true }

/-- Main-run environment where backup verification raises
`BackupVerificationError` and everything else works. -/
def mainEnvVerifyFail : MainEnv :=
  { mainEnvCreateFail with
    createRes := .ok true
    verifyRes := .error (.backupVerificationError ("decrypt failed")) }

/-- Main-run environment for a fully clean run. -/
def mainEnvClean : MainEnv :=
  { mainEnvCreateFail with createRes := .ok true }

/-! ## Theorems -/

/-- C10: `force_stop_containers` and `force_kill_containers` always return
`True` for every id list — also when the underlying docker command exits
non-zero or times out, that outcome being only logged — and for the empty
list no command is run at all. -/
theorem C10_force_helpers_always_true :
    ∀ (dry_run : Bool) (outcome : RunOutcome) (ids : List String) (timeout : Nat),
      (force_stop_containers dry_run outcome ids timeout).1 = true ∧
      (force_kill_containers dry_run outcome ids).1 = true ∧
      (ids = [] →
        (force_stop_containers dry_run outcome ids timeout).2 = [] ∧
        (force_kill_containers dry_run outcome ids).2 = []) := by
  intro dry_run outcome ids timeout
  refine ⟨?_, ?_, ?_⟩
  · unfold force_stop_containers
    split
    · rfl
    · split <;> rfl
  · unfold force_kill_containers
    split
    · rfl
    · split <;> rfl
  · intro h
    subst h
    exact ⟨rfl, rfl⟩

theorem C10_witness :
    (force_stop_containers false RunOutcome.timedOut [] 30).1 = true ∧
    (force_kill_containers false (RunOutcome.exits 1) []).1 = true ∧
    (force_stop_containers false RunOutcome.timedOut [] 30).2 = [] ∧
    (force_kill_containers false (RunOutcome.exits 1) []).2 = [] := by
  have h1 := C10_force_helpers_always_true false RunOutcome.timedOut [] 30
  have h2 := C10_force_helpers_always_true false (RunOutcome.exits 1) [] 30
  exact ⟨h1.1, h2.2.1, (h1.2.2 rfl).1, (h2.2.2 rfl).2⟩

/-- C7: with Docker management enabled and not in dry-run mode, if the
first enumeration of running containers returns the empty list (and no
cooperative shutdown is pending), `ensure_all_containers_stopped` returns
`True` immediately: the command trace holds only that single enumeration,
so no compose-stop, `docker stop` or `docker kill` command was issued. -/
theorem C7_zero_running_immediate_true :
    ∀ (env : DockerEnv) (compose_files : List String) (timeout : Nat),
      env.shutdownAt 0 = false →
      env.ps 0 = .ok [] →
      ensure_all_containers_stopped env compose_files false timeout =
        .ok { stopped := true, surviving := [], pendingWarnings := [],
              trace := [DockerCmd.dockerPs] } := by
  intro env compose_files timeout hsd hps
  unfold ensure_all_containers_stopped
  simp only [DOCKER_ENABLE_STOP_START, DOCKER_SHUTDOWN_MAX_RETRIES,
    Bool.not_true, Bool.false_eq_true, if_false, ite_false, Bool.false_or]
  rw [show (3 : Nat) = 2 + 1 from rfl]
  unfold ensureLoop
  simp [hsd, hps, DOCKER_SHUTDOWN_OVERALL_TIMEOUT]

theorem C7_witness :
    ensure_all_containers_stopped dEnvIdle [("f1")] false DOCKER_FORCE_STOP_TIMEOUT =
      .ok { stopped := true, surviving := [], pendingWarnings := [],
            trace := [DockerCmd.dockerPs] } :=
  C7_zero_running_immediate_true dEnvIdle [("f1")] DOCKER_FORCE_STOP_TIMEOUT rfl rfl

theorem getLast?_cons_eq {α : Type _} : ∀ (l : List α) (a : α),
    (a :: l).getLast? = (match l.getLast? with
      | some x => some x
      | none => some a)
  | [], _ => rfl
  | b :: m, a => by
      rw [List.getLast?_cons_cons, getLast?_cons_eq m b]
      cases h : m.getLast? <;> simp

theorem parseStep_eq (acc : Option (List (String × Jv)) × List String) (l : RcLine) :
    parseStep acc l =
      ((match statsOf l with
        | some d => some d
        | none => acc.1),
       acc.2 ++ (errOf l).toList) := by
  cases l with
  | junk => simp [parseStep, statsOf, errOf]
  | nonDict v => simp [parseStep, statsOf, errOf]
  | record fields =>
      simp only [parseStep, statsOf, errOf]
      split
      · simp
      · cases hl : isErrorLevel fields
        · simp [hl]
        · simp only [hl, if_true]
          rcases hm : jget fields ("msg") with _ | m
          · simp [hm]
          · cases m <;> simp [hm]

theorem parse_foldl (lines : List RcLine) :
    ∀ acc, lines.foldl parseStep acc =
      ((match (lines.filterMap statsOf).getLast? with
        | some d => some d
        | none => acc.1),
       acc.2 ++ lines.filterMap errOf) := by
  induction lines with
  | nil => intro acc; simp
  | cons l ls ih =>
      intro acc
      rw [List.foldl_cons, parseStep_eq, ih, Prod.mk.injEq]
      constructor
      · cases hs : statsOf l
        · simp [List.filterMap_cons, hs]
        · simp only [List.filterMap_cons, hs]
          rw [getLast?_cons_eq]
          cases h2 : (ls.filterMap statsOf).getLast? <;> simp
      · cases he : errOf l
        · simp [List.filterMap_cons, he]
        · simp [List.filterMap_cons, he]

/-- C8 counterexample: a parsed record that carries both a `stats`
dictionary and `level == "error"` does not contribute its message to the
error list — the source's `elif` lets the `stats` branch shadow the error
branch — contradicting the claim that every record with level `error`
appends its message. -/
theorem C8_counterexample :
    isErrorLevel c8Fields = true ∧
    jget c8Fields ("msg") = some (Jv.str ("boom")) ∧
    (parseRcloneLog [RcLine.record c8Fields]).2 = [] :=
  ⟨rfl, rfl, rfl⟩

/-- C8 (amended): non-JSON and non-object lines are ignored; the last
record carrying a `stats` dictionary provides the reported aggregate; a
parsed record with level `error` and a string message appends that
message verbatim, in order, unless the same record also carries a `stats`
dictionary (then only the aggregate is replaced); the reported last-error
text is the newline join of at most the last three collected messages
when any were collected, and the fixed text `None` otherwise. -/
theorem C8_amended_log_parsing : ∀ lines : List RcLine,
    (parseRcloneLog lines).2 = lines.filterMap errOf ∧
    (parseRcloneLog lines).1 = (lines.filterMap statsOf).getLast? ∧
    (lines.filterMap errOf ≠ [] →
      (executeRcloneParse lines).lastError =
        String.intercalate ("\n")
          ((lines.filterMap errOf).drop ((lines.filterMap errOf).length - 3)) ∧
      ((lines.filterMap errOf).drop ((lines.filterMap errOf).length - 3)).length ≤ 3 ∧
      (lines.filterMap errOf).drop ((lines.filterMap errOf).length - 3) <:+
        lines.filterMap errOf) ∧
    (lines.filterMap errOf = [] → (executeRcloneParse lines).lastError = ("None")) := by
  intro lines
  have hfold := parse_foldl lines (none, [])
  have herr : (parseRcloneLog lines).2 = lines.filterMap errOf := by
    unfold parseRcloneLog
    rw [hfold]
    simp
  have hstats : (parseRcloneLog lines).1 = (lines.filterMap statsOf).getLast? := by
    unfold parseRcloneLog
    rw [hfold]
    cases h : (lines.filterMap statsOf).getLast? <;> simp [h]
  have hlast : (executeRcloneParse lines).lastError = lastErrorText (lines.filterMap errOf) := by
    simp only [executeRcloneParse]
    rw [herr]
  refine ⟨herr, hstats, ?_, ?_⟩
  · intro hne
    refine ⟨?_, ?_, List.drop_suffix _ _⟩
    · rw [hlast]
      unfold lastErrorText
      simp [List.isEmpty_iff, hne]
    · simp only [List.length_drop]
      omega
  · intro hemp
    rw [hlast, hemp]
    rfl

theorem C8_amended_witness :
    c8wLines.filterMap errOf ≠ [] ∧
    (executeRcloneParse c8wLines).lastError =
      String.intercalate ("\n")
        ((c8wLines.filterMap errOf).drop ((c8wLines.filterMap errOf).length - 3)) := by
  have h := (C8_amended_log_parsing c8wLines).2.2.1 (by decide)
  exact ⟨by decide, h.1⟩

/-- C4 counterexample: a run whose first attempt hits the per-attempt
timeout and whose second attempt succeeds takes 7230 seconds in total
(7200 for the timed-out attempt plus the 30 second backoff), exceeding
RCLONE_OVERALL_TIMEOUT — so RCLONE_OVERALL_TIMEOUT does not bound the
whole `run_rclone_sync_with_retry` call; it is a per-attempt timeout. -/
theorem C4_counterexample :
    run_rclone_sync_with_retry rcEnvTimeoutFirst false =
      .ok { status := .success, attempts := 2, elapsed := 7230 } ∧
    RCLONE_OVERALL_TIMEOUT < 7230 :=
  ⟨rfl, by decide⟩

theorem rcloneLoop_elapsed_bound (env : RcloneEnv)
    (hex : ∀ i c d, env.attempt i = .exits c d → d ≤ RCLONE_OVERALL_TIMEOUT)
    (hrs : ∀ i m d, env.attempt i = .raises m d → d ≤ RCLONE_OVERALL_TIMEOUT) :
    ∀ (fuel attempt delay elapsed : Nat) (r : RcloneResult),
      delay ≤ RCLONE_RETRY_MAX_DELAY →
      rcloneLoop env fuel attempt delay elapsed = .ok r →
      r.elapsed ≤ elapsed + fuel * (RCLONE_OVERALL_TIMEOUT + RCLONE_RETRY_MAX_DELAY) := by
  intro fuel
  induction fuel with
  | zero =>
      intro attempt delay elapsed r hd h
      simp only [rcloneLoop] at h
      cases h
      simp
  | succ n ih =>
      intro attempt delay elapsed r hd h
      simp only [rcloneLoop] at h
      by_cases hsd : env.shutdownAt attempt = true
      · rw [if_pos hsd] at h
        exact absurd h (by simp)
      · rw [if_neg hsd] at h
        have he1 : (if attempt > 1 then elapsed + delay else elapsed) ≤
            elapsed + RCLONE_RETRY_MAX_DELAY := by
          split <;> omega
        have hd1 : (if attempt > 1 then min (delay * 2) RCLONE_RETRY_MAX_DELAY else delay) ≤
            RCLONE_RETRY_MAX_DELAY := by
          split
          · exact min_le_right _ _
          · exact hd
        cases henv : env.attempt attempt with
        | exits code dur =>
            rw [henv] at h
            dsimp only at h
            have hdur := hex attempt code dur henv
            by_cases hc : (code == 0) = true
            · rw [if_pos hc] at h
              cases h
              simp only [RCLONE_OVERALL_TIMEOUT, RCLONE_RETRY_MAX_DELAY] at *
              omega
            · rw [if_neg hc] at h
              by_cases hr : (!is_retryable_rclone_error code) = true
              · rw [if_pos hr] at h
                cases h
                simp only [RCLONE_OVERALL_TIMEOUT, RCLONE_RETRY_MAX_DELAY] at *
                omega
              · rw [if_neg hr] at h
                have := ih _ _ _ _ hd1 h
                simp only [RCLONE_OVERALL_TIMEOUT, RCLONE_RETRY_MAX_DELAY] at *
                omega
        | timedOut =>
            rw [henv] at h
            dsimp only at h
            have := ih _ _ _ _ hd1 h
            simp only [RCLONE_OVERALL_TIMEOUT, RCLONE_RETRY_MAX_DELAY] at *
            omega
        | raises m dur =>
            rw [henv] at h
            dsimp only at h
            have hdur := hrs attempt m dur henv
            have := ih _ _ _ _ hd1 h
            simp only [RCLONE_OVERALL_TIMEOUT, RCLONE_RETRY_MAX_DELAY] at *
            omega

/-- C4 (amended): RCLONE_OVERALL_TIMEOUT is a per-attempt bound, not a
bound on the whole call; when every attempt's duration respects the
per-attempt subprocess timeout, the total wall-clock time of
`run_rclone_sync_with_retry` (attempt durations plus backoff sleeps) is
bounded by RCLONE_MAX_RETRIES * (RCLONE_OVERALL_TIMEOUT +
RCLONE_RETRY_MAX_DELAY). -/
theorem C4_amended_overall_bound :
    ∀ (env : RcloneEnv),
      (∀ i c d, env.attempt i = .exits c d → d ≤ RCLONE_OVERALL_TIMEOUT) →
      (∀ i m d, env.attempt i = .raises m d → d ≤ RCLONE_OVERALL_TIMEOUT) →
      ∀ (dry_run : Bool) (r : RcloneResult),
        run_rclone_sync_with_retry env dry_run = .ok r →
        r.elapsed ≤ RCLONE_MAX_RETRIES * (RCLONE_OVERALL_TIMEOUT + RCLONE_RETRY_MAX_DELAY) := by
  intro env hex hrs dry_run r h
  unfold run_rclone_sync_with_retry at h
  split at h
  · cases h
    simp
  · have hb := rcloneLoop_elapsed_bound env hex hrs RCLONE_MAX_RETRIES 1
      RCLONE_RETRY_DELAY 0 r (by decide) h
    simpa using hb

theorem C4_amended_witness :
    ({ status := .success, attempts := 1, elapsed := 0 } : RcloneResult).elapsed ≤
      RCLONE_MAX_RETRIES * (RCLONE_OVERALL_TIMEOUT + RCLONE_RETRY_MAX_DELAY) :=
  C4_amended_overall_bound rcEnvInstant
    (by
      intro i c d h
      simp only [rcEnvInstant] at h
      cases h
      decide)
    (by
      intro i m d h
      simp only [rcEnvInstant] at h
      cases h)
    false { status := .success, attempts := 1, elapsed := 0 } rfl

theorem rcloneLoop_reaches (env : RcloneEnv) (N : Nat) (d0 : Nat)
    (hN : env.attempt N = .exits 0 d0) :
    ∀ (fuel attempt delay elapsed : Nat),
      attempt ≤ N → N < attempt + fuel →
      (∀ i, attempt ≤ i → i < N → retryableOutcome (env.attempt i)) →
      (∀ i, attempt ≤ i → i ≤ N → env.shutdownAt i = false) →
      ∃ e, rcloneLoop env fuel attempt delay elapsed =
        .ok { status := .success, attempts := N, elapsed := e } := by
  intro fuel
  induction fuel with
  | zero =>
      intro attempt delay elapsed h1 h2 h3 h4
      omega
  | succ n ih =>
      intro attempt delay elapsed h1 h2 h3 h4
      have hsd : env.shutdownAt attempt = false := h4 attempt le_rfl h1
      simp only [rcloneLoop, hsd, Bool.false_eq_true, if_false]
      by_cases hAN : attempt = N
      · subst hAN
        rw [hN]
        dsimp only
        simp
      · have hlt : attempt < N := lt_of_le_of_ne h1 hAN
        have hnext := ih (attempt + 1)
        rcases h3 attempt le_rfl hlt with ⟨c, d, hcd, hc0, hretry⟩ | hto | ⟨m, d, hmd⟩
        · rw [hcd]
          dsimp only
          have hcz : (c == 0) = false := by simp [hc0]
          simp only [hcz, Bool.false_eq_true, if_false, hretry, Bool.not_true]
          exact hnext _ _ (by omega) (by omega)
            (fun i hi1 hi2 => h3 i (by omega) hi2)
            (fun i hi1 hi2 => h4 i (by omega) hi2)
        · rw [hto]
          dsimp only
          exact hnext _ _ (by omega) (by omega)
            (fun i hi1 hi2 => h3 i (by omega) hi2)
            (fun i hi1 hi2 => h4 i (by omega) hi2)
        · rw [hmd]
          dsimp only
          exact hnext _ _ (by omega) (by omega)
            (fun i hi1 hi2 => h3 i (by omega) hi2)
            (fun i hi1 hi2 => h4 i (by omega) hi2)

/-- C5: a non-retryable rclone exit code (1, 3, 4 or 7) on the first
attempt makes `run_rclone_sync_with_retry` return status `failed` with
`attempts = 1`, regardless of the remaining attempts; and any run whose
attempts before `N` all end in retryable non-zero exit codes, per-attempt
timeouts or loop-caught exceptions, and whose attempt `N ≤
RCLONE_MAX_RETRIES` exits 0, returns success with `attempts = N` — so
retryable errors and timeouts never short-circuit the loop. -/
theorem C5_retry_classification :
    (∀ (env : RcloneEnv) (code : Int) (d : Nat),
      env.shutdownAt 1 = false →
      env.attempt 1 = .exits code d →
      is_retryable_rclone_error code = false →
      ∃ e, run_rclone_sync_with_retry env false =
        .ok { status := .failed, attempts := 1, elapsed := e }) ∧
    (∀ (env : RcloneEnv) (N d : Nat),
      1 ≤ N → N ≤ RCLONE_MAX_RETRIES →
      env.attempt N = .exits 0 d →
      (∀ i, 1 ≤ i → i < N → retryableOutcome (env.attempt i)) →
      (∀ i, 1 ≤ i → i ≤ N → env.shutdownAt i = false) →
      ∃ e, run_rclone_sync_with_retry env false =
        .ok { status := .success, attempts := N, elapsed := e }) := by
  constructor
  · intro env code d hsd hatt hfatal
    have hcz : (code == 0) = false := by
      by_cases hc : code = 0
      · subst hc
        exact absurd hfatal (by decide)
      · simp [hc]
    unfold run_rclone_sync_with_retry
    rw [show RCLONE_MAX_RETRIES = 4 + 1 from rfl]
    simp only [rcloneLoop, hsd, Bool.false_eq_true, if_false, hatt, hcz, hfatal,
      ENABLE_RCLONE_UPLOAD, Bool.not_true, Bool.false_or, Bool.not_false]
    simp
  · intro env N d h1 h5 hN h3 h4
    have := rcloneLoop_reaches env N d hN RCLONE_MAX_RETRIES 1
      RCLONE_RETRY_DELAY 0 h1 (by simp only [RCLONE_MAX_RETRIES] at *; omega) h3 h4
    unfold run_rclone_sync_with_retry
    simpa using this

theorem C5_witness :
    (∃ e, run_rclone_sync_with_retry rcEnvFatalFirst false =
      .ok { status := .failed, attempts := 1, elapsed := e }) ∧
    (∃ e, run_rclone_sync_with_retry rcEnvRetryFirst false =
      .ok { status := .success, attempts := 2, elapsed := e }) := by
  constructor
  · exact C5_retry_classification.1 rcEnvFatalFirst 3 5 rfl rfl (by decide)
  · refine C5_retry_classification.2 rcEnvRetryFirst 2 0 (by decide) (by decide) rfl ?_ ?_
    · intro i hi1 hi2
      have : i = 1 := by omega
      subst this
      exact Or.inl ⟨5, 10, rfl, by decide, by decide⟩
    · intro i hi1 hi2
      rfl

theorem ensureLoop_stubborn (env : DockerEnv) (compose_files : List String)
    (timeout : Nat) (S : List String) (hS : S ≠ [])
    (hps : ∀ k, env.ps k = .ok S)
    (hsd : ∀ r, env.shutdownAt r = false) :
    ∀ (fuel retry k elapsed : Nat) (trace : List DockerCmd),
      ∃ k2 e2 tr2,
        ensureLoop env compose_files false timeout fuel retry k elapsed trace =
          .ok (.fellThrough, k2, e2, tr2) := by
  have hSe : S.isEmpty = false := by
    cases S
    · exact absurd rfl hS
    · rfl
  intro fuel
  induction fuel with
  | zero =>
      intro retry k elapsed trace
      exact ⟨k, elapsed, trace, rfl⟩
  | succ n ih =>
      intro retry k elapsed trace
      simp only [ensureLoop, hsd, Bool.false_eq_true, if_false, hps, hSe]
      split <;>
        (split
         · exact ⟨_, _, _, rfl⟩
         · exact ih _ _ _ _)

/-- C6: when the same non-empty set of containers survives every check of
every escalation stage across all retries, `ensure_all_containers_stopped`
returns `False` without raising; the warning list gains exactly one entry,
recorded after the retries, and that single warning names the surviving
containers — with a duplicate-free survivor set, every identifier occurs
exactly once. -/
theorem C6_stubborn_containers_warning :
    ∀ (env : DockerEnv) (compose_files : List String) (timeout : Nat) (S : List String),
      S ≠ [] →
      (∀ k, env.ps k = .ok S) →
      (∀ r, env.shutdownAt r = false) →
      ∃ res, ensure_all_containers_stopped env compose_files false timeout = .ok res ∧
        res.stopped = false ∧
        res.surviving = S ∧
        res.pendingWarnings = [("Containers still running: ") ++ containerList env S] ∧
        (S.Nodup → ∀ cid ∈ S, S.count cid = 1) := by
  intro env compose_files timeout S hS hps hsd
  have hSe : S.isEmpty = false := by
    cases S
    · exact absurd rfl hS
    · rfl
  obtain ⟨k2, e2, tr2, hloop⟩ := ensureLoop_stubborn env compose_files timeout S hS hps hsd
    DOCKER_SHUTDOWN_MAX_RETRIES 0 0 0 []
  unfold ensure_all_containers_stopped
  rw [hloop]
  simp only [DOCKER_ENABLE_STOP_START, Bool.not_true, Bool.false_eq_true, if_false, hps, hSe]
  exact ⟨_, rfl, rfl, rfl, rfl, fun hnd cid hm => List.count_eq_one_of_mem hnd hm⟩

theorem C6_witness :
    ∃ res, ensure_all_containers_stopped dEnvStubborn [("f1")] false DOCKER_FORCE_STOP_TIMEOUT =
        .ok res ∧
      res.stopped = false ∧
      res.surviving = [("abc"), ("def0")] ∧
      res.pendingWarnings =
        [("Containers still running: ") ++ containerList dEnvStubborn [("abc"), ("def0")]] ∧
      (([("abc"), ("def0")] : List String).Nodup → ∀ cid ∈ ([("abc"), ("def0")] : List String),
        ([("abc"), ("def0")] : List String).count cid = 1) := by
  exact C6_stubborn_containers_warning dEnvStubborn [("f1")] DOCKER_FORCE_STOP_TIMEOUT
    [("abc"), ("def0")] (by simp) (fun _ => rfl) (fun _ => rfl)

theorem flagLe_refl (st : BackupState) : FlagLe st st := by
  unfold FlagLe
  exact ⟨id, id, id, id, id, id⟩

theorem flagLe_trans {a b c : BackupState} (h1 : FlagLe a b) (h2 : FlagLe b c) : FlagLe a c := by
  unfold FlagLe at *
  exact ⟨fun h => h2.1 (h1.1 h),
         fun h => h2.2.1 (h1.2.1 h),
         fun h => h2.2.2.1 (h1.2.2.1 h),
         fun h => h2.2.2.2.1 (h1.2.2.2.1 h),
         fun h => h2.2.2.2.2.1 (h1.2.2.2.2.1 h),
         fun h => h2.2.2.2.2.2 (h1.2.2.2.2.2 h)⟩

theorem flagLe_setStage (s : BackupStage) (st : BackupState) : FlagLe st (setStage s st) := by
  simp [FlagLe, setStage]

theorem flagLe_setMaintenance (v : Option Int) (st : BackupState) :
    FlagLe st (setMaintenance v st) := by
  simp [FlagLe, setMaintenance]

theorem flagLe_addError (m : String) (st : BackupState) : FlagLe st (addError m st) := by
  simp [FlagLe, addError]

theorem flagLe_addWarning (m : String) (st : BackupState) : FlagLe st (addWarning m st) := by
  simp [FlagLe, addWarning]

theorem flagLe_addWarnings (msgs : List String) : ∀ st, FlagLe st (addWarnings msgs st) := by
  induction msgs with
  | nil => intro st; exact flagLe_refl st
  | cons m ms ih =>
      intro st
      exact flagLe_trans (flagLe_addWarning m st) (ih (addWarning m st))

theorem flagLe_setContainersStopped (b : Bool) (st : BackupState)
    (h : st.containers_stopped = false) : FlagLe st (setContainersStopped b st) := by
  simp [FlagLe, setContainersStopped, h]

theorem flagLe_markCreated (st : BackupState) : FlagLe st (markCreated st) := by
  simp [FlagLe, markCreated]

theorem flagLe_markVerified (st : BackupState) : FlagLe st (markVerified st) := by
  simp [FlagLe, markVerified]

theorem flagLe_markPlexStarted (st : BackupState) : FlagLe st (markPlexStarted st) := by
  simp [FlagLe, markPlexStarted]

theorem flagLe_markOtherStarted (st : BackupState) : FlagLe st (markOtherStarted st) := by
  simp [FlagLe, markOtherStarted]

theorem flagLe_markRcloneCompleted (st : BackupState) : FlagLe st (markRcloneCompleted st) := by
  simp [FlagLe, markRcloneCompleted]

theorem trkOk_start : TrkOk Trk.start := by
  unfold TrkOk Trk.start
  exact ⟨List.chain'_singleton _, rfl⟩

theorem trkOk_push {t : Trk} {f : BackupState → BackupState}
    (h : TrkOk t) (hf : FlagLe t.st (f t.st)) : TrkOk (t.push f) := by
  obtain ⟨hc, hh⟩ := h
  unfold TrkOk Trk.push
  constructor
  · refine List.chain'_cons'.mpr ⟨?_, hc⟩
    intro b hb
    rw [hh] at hb
    cases hb
    exact hf
  · rfl

theorem addWarnings_containers_stopped (msgs : List String) :
    ∀ st : BackupState, (addWarnings msgs st).containers_stopped = st.containers_stopped := by
  induction msgs with
  | nil => intro st; rfl
  | cons m ms ih =>
      intro st
      unfold addWarnings at *
      rw [List.foldl_cons, ih (addWarning m st)]
      rfl

theorem trkOk_syncStage (env : MainEnv) (t : Trk) (h : TrkOk t) : TrkOk (syncStage env t).1 := by
  simp only [syncStage, finishTry]
  repeat' split
  all_goals
    repeat'
      first
      | exact h
      | apply trkOk_push
      | exact flagLe_setStage _ _
      | exact flagLe_addError _ _
      | exact flagLe_markRcloneCompleted _

theorem trkOk_verifyStage (env : MainEnv) (t : Trk) (h : TrkOk t) :
    TrkOk (verifyStage env t).1 := by
  simp only [verifyStage]
  repeat' split
  all_goals
    first
    | exact h
    | exact trkOk_push h (flagLe_setStage _ _)
    | exact trkOk_syncStage env _
        (trkOk_push (trkOk_push h (flagLe_setStage _ _)) (flagLe_addError _ _))
    | exact trkOk_syncStage env _
        (trkOk_push (trkOk_push h (flagLe_setStage _ _)) (flagLe_markVerified _))
    | exact trkOk_syncStage env _ (trkOk_push h (flagLe_setStage _ _))

theorem trkOk_createStage (env : MainEnv) (t : Trk) (h : TrkOk t) :
    TrkOk (createStage env t).1 := by
  simp only [createStage]
  have h1 : TrkOk (t.push (setStage .BACKUP_CREATION)) :=
    trkOk_push h (flagLe_setStage _ _)
  repeat' split
  all_goals
    first
    | exact trkOk_push h1 (flagLe_addError _ _)
    | exact h1
    | apply trkOk_verifyStage
  all_goals
    repeat'
      first
      | exact h1
      | apply trkOk_push
      | exact flagLe_setStage _ _
      | exact flagLe_markCreated _
      | exact flagLe_markPlexStarted _

theorem trkOk_shutdownStage (env : MainEnv) (t : Trk) (h : TrkOk t)
    (hcs : t.st.containers_stopped = false) : TrkOk (shutdownStage env t).1 := by
  simp only [shutdownStage]
  have h1 : TrkOk (t.push (setStage .CONTAINER_SHUTDOWN)) :=
    trkOk_push h (flagLe_setStage _ _)
  have h2 : ∀ shutdown : Bool × List String,
      TrkOk (((t.push (setStage .CONTAINER_SHUTDOWN)).push
        (addWarnings shutdown.2)).push (setContainersStopped shutdown.1)) := by
    intro shutdown
    apply trkOk_push
    · exact trkOk_push h1 (flagLe_addWarnings _ _)
    · exact flagLe_setContainersStopped _ _
        (by simp [Trk.push, setStage, addWarnings_containers_stopped, hcs])
  repeat' split
  all_goals
    first
    | exact h1
    | exact h2 _
    | exact trkOk_createStage env _ (h2 _)

theorem trkOk_tryBody (env : MainEnv) (t : Trk) (h : TrkOk t)
    (hcs : t.st.containers_stopped = false) : TrkOk (tryBody env t).1 := by
  simp only [tryBody]
  repeat' split
  all_goals
    first
    | exact h
    | exact trkOk_push h (flagLe_setStage _ _)
    | (apply trkOk_shutdownStage
       · exact trkOk_push (trkOk_push (trkOk_push h (flagLe_setStage _ _))
           (flagLe_setStage _ _)) (flagLe_setMaintenance _ _)
       · simp [Trk.push, setStage, setMaintenance, hcs])

theorem trkOk_handleTop (t : Trk) (r : TryResult) (h : TrkOk t) : TrkOk (handleTop t r).1 := by
  cases r with
  | completed s => exact h
  | raised e => cases e <;> exact trkOk_push h (flagLe_addError _ _)
  | lockHeld => exact h
  | exited => exact h

theorem trkOk_finalize (env : MainEnv) (t : Trk) (s : Bool) (h : TrkOk t) :
    TrkOk (finalize env t s).1 := by
  simp only [finalize]
  repeat' split
  all_goals
    repeat'
      first
      | exact h
      | apply trkOk_push
      | exact flagLe_setStage _ _
      | exact flagLe_markPlexStarted _
      | exact flagLe_markOtherStarted _

/-- C9: within one run every boolean run-state flag (containers_stopped,
plex_started, other_services_started, backup_created, backup_verified,
rclone_completed), once set to true, is never reset to false: consecutive
states in the chronological state history of `mainRun` are related by
`FlagLe`. -/
theorem C9_flags_monotone :
    ∀ env : MainEnv, List.Chain' FlagLe ((mainRun env).trk.hist.reverse) := by
  intro env
  have h0 : TrkOk (tryBody env Trk.start).1 :=
    trkOk_tryBody env Trk.start trkOk_start rfl
  have h1 : TrkOk (handleTop (tryBody env Trk.start).1 (tryBody env Trk.start).2).1 :=
    trkOk_handleTop _ _ h0
  have h2 : TrkOk (finalize env
      (handleTop (tryBody env Trk.start).1 (tryBody env Trk.start).2).1
      (handleTop (tryBody env Trk.start).1 (tryBody env Trk.start).2).2).1 :=
    trkOk_finalize env _ _ h1
  have hmain : (mainRun env).trk = (finalize env
      (handleTop (tryBody env Trk.start).1 (tryBody env Trk.start).2).1
      (handleTop (tryBody env Trk.start).1 (tryBody env Trk.start).2).2).1 := rfl
  rw [hmain]
  exact List.chain'_reverse.mpr h2.1

theorem addWarnings_eq (msgs : List String) : ∀ st : BackupState,
    addWarnings msgs st = { st with warnings := (addWarnings msgs st).warnings } := by
  induction msgs with
  | nil => intro st; rfl
  | cons m ms ih =>
      intro st
      show addWarnings ms (addWarning m st) = _
      rw [ih (addWarning m st)]
      rfl

theorem addWarnings_stage (msgs : List String) (st : BackupState) :
    (addWarnings msgs st).stage = st.stage := by rw [addWarnings_eq]

theorem addWarnings_plex_started (msgs : List String) (st : BackupState) :
    (addWarnings msgs st).plex_started = st.plex_started := by rw [addWarnings_eq]

theorem addWarnings_other_started (msgs : List String) (st : BackupState) :
    (addWarnings msgs st).other_services_started = st.other_services_started := by
  rw [addWarnings_eq]

theorem addWarnings_maintenance (msgs : List String) (st : BackupState) :
    (addWarnings msgs st).maintenance_window_id = st.maintenance_window_id := by
  rw [addWarnings_eq]

theorem addWarnings_backup_created (msgs : List String) (st : BackupState) :
    (addWarnings msgs st).backup_created = st.backup_created := by rw [addWarnings_eq]

theorem addWarnings_backup_verified (msgs : List String) (st : BackupState) :
    (addWarnings msgs st).backup_verified = st.backup_verified := by rw [addWarnings_eq]

theorem addWarnings_rclone_completed (msgs : List String) (st : BackupState) :
    (addWarnings msgs st).rclone_completed = st.rclone_completed := by rw [addWarnings_eq]

theorem addWarnings_errors (msgs : List String) (st : BackupState) :
    (addWarnings msgs st).errors = st.errors := by rw [addWarnings_eq]

theorem finalize_exitCode (env : MainEnv) (t : Trk) (s : Bool) :
    (finalize env t s).2.2 = if s then 0 else 1 := rfl

theorem finalize_errors (env : MainEnv) (t : Trk) (s : Bool) :
    (finalize env t s).1.st.errors = t.st.errors := by
  simp only [finalize]
  repeat' split
  all_goals simp [Trk.push, setStage, markPlexStarted, markOtherStarted]

theorem finalize_created (env : MainEnv) (t : Trk) (s : Bool) :
    (finalize env t s).1.st.backup_created = t.st.backup_created := by
  simp only [finalize]
  repeat' split
  all_goals simp [Trk.push, setStage, markPlexStarted, markOtherStarted]

theorem handleTop_raised_false (t : Trk) (e : Exc) :
    (handleTop t (.raised e)).2 = false := by
  cases e <;> rfl

theorem handleTop_raised_addError (t : Trk) (e : Exc) :
    ∃ m : String, handleTop t (.raised e) = (t.push (addError m), false) := by
  cases e <;> exact ⟨_, rfl⟩

theorem completedSpec_syncStage (env : MainEnv) (t : Trk) :
    CompletedSpec (syncStage env t) := by
  simp only [syncStage, finishTry]
  repeat' split
  all_goals simp [CompletedSpec]

theorem completedSpec_verifyStage (env : MainEnv) (t : Trk) :
    CompletedSpec (verifyStage env t) := by
  simp only [verifyStage]
  repeat' split
  all_goals
    first
    | exact completedSpec_syncStage env _
    | simp [CompletedSpec]

theorem completedSpec_createStage (env : MainEnv) (t : Trk) :
    CompletedSpec (createStage env t) := by
  simp only [createStage]
  repeat' split
  all_goals
    first
    | exact completedSpec_verifyStage env _
    | simp [CompletedSpec]

theorem completedSpec_shutdownStage (env : MainEnv) (t : Trk) :
    CompletedSpec (shutdownStage env t) := by
  simp only [shutdownStage]
  repeat' split
  all_goals
    first
    | exact completedSpec_createStage env _
    | simp [CompletedSpec]

theorem completedSpec_tryBody (env : MainEnv) (t : Trk)
    (hc : t.st.backup_created = false) : CompletedSpec (tryBody env t) := by
  simp only [tryBody]
  repeat' split
  all_goals
    first
    | exact completedSpec_shutdownStage env _
    | simp [CompletedSpec, Trk.push, setStage, setMaintenance, hc]

/-- C2: the process exits with code 0 exactly when the backup archive was
created and the error list of the final state is empty; warnings play no
role in the exit code. -/
theorem C2_exit_zero_iff :
    ∀ env : MainEnv,
      (mainRun env).exitCode = 0 ↔
        ((mainRun env).trk.st.backup_created = true ∧ (mainRun env).trk.st.errors = []) := by
  intro env
  have hspec := completedSpec_tryBody env Trk.start rfl
  rcases htb : tryBody env Trk.start with ⟨t, r⟩
  rw [htb] at hspec
  have hcode : (mainRun env).exitCode =
      (finalize env (handleTop t r).1 (handleTop t r).2).2.2 := by
    simp only [mainRun, htb]
  have htrk : (mainRun env).trk =
      (finalize env (handleTop t r).1 (handleTop t r).2).1 := by
    simp only [mainRun, htb]
  rw [hcode, htrk, finalize_exitCode, finalize_errors, finalize_created]
  cases r with
  | completed s =>
      simp only [CompletedSpec] at hspec
      simp only [handleTop]
      subst hspec
      cases hcreated : t.st.backup_created <;> cases herr : t.st.errors <;>
        simp [hcreated, herr]
  | raised e =>
      obtain ⟨m, hm⟩ := handleTop_raised_addError t e
      rw [hm]
      simp [Trk.push, addError]
  | lockHeld =>
      simp only [CompletedSpec] at hspec
      simp only [handleTop]
      simp [hspec]
  | exited =>
      simp only [CompletedSpec] at hspec
      simp only [handleTop]
      simp [hspec]

/-- C1: on every run where backup creation raises `BackupCreationError`,
finalization still runs before the process reports failure, in order:
the priority (Plex) compose services are started (they were not already
started), the remaining compose services are started, the set of running
containers is checked, an emergency all-services restart is invoked
exactly when that set is empty — and only after all of this does the
process exit with code 1 (the `exitProcess 1` event is last). -/
theorem C1_snapshot_failure_finalization :
    ∀ (env : MainEnv) (b : Bool) (w : List String) (m : String) (running : List String),
      env.lock = .acquired →
      env.preflightOk = true →
      env.shutdownRes = .ok (b, w) →
      env.checkShutdown1 = false →
      env.createRes = .error (.backupCreationError m) →
      env.plexCompose ≠ [] →
      env.otherCompose ≠ [] →
      env.finalPs = .ok running →
      (mainRun env).exitCode = 1 ∧
      (mainRun env).events =
        [FinalEvent.restartPlex, FinalEvent.restartOther,
         FinalEvent.checkRunning running.length] ++
        (if running.isEmpty then [FinalEvent.emergencyRestart] else []) ++
        (if env.maintenanceId.isSome then [FinalEvent.removeMaintenance] else []) ++
        [FinalEvent.notifyFinal, FinalEvent.exitProcess 1] := by
  intro env b w m running hlock hpre hshut hcs1 hcreate hplex hother hps
  have hplex2 : env.plexCompose.isEmpty = false := by
    cases hc : env.plexCompose
    · exact absurd hc hplex
    · rfl
  have hother2 : env.otherCompose.isEmpty = false := by
    cases hc : env.otherCompose
    · exact absurd hc hother
    · rfl
  have htb : tryBody env Trk.start =
      (((((Trk.start.push (setStage .PREFLIGHT)).push
          (setStage .MAINTENANCE_WINDOW)).push
          (setMaintenance env.maintenanceId)).push
          (setStage .CONTAINER_SHUTDOWN)).push (addWarnings w) |>.push
          (setContainersStopped b) |>.push (setStage .BACKUP_CREATION) |>.push
          (addError m),
        .raised (.backupCreationError m)) := by
    simp [tryBody, shutdownStage, createStage, hlock, hpre, hshut, hcs1, hcreate]
  constructor
  · simp only [mainRun, htb]
    rfl
  · by_cases hfp : env.finalPlexStartOk = true <;>
      by_cases hfo : env.finalOtherStartOk = true <;>
      (simp only [mainRun, htb]
       simp [finalize, handleTop, DOCKER_ENABLE_STOP_START, hps, hplex2, hother2,
         hfp, hfo, Trk.push, setStage, setMaintenance, setContainersStopped,
         addError, markPlexStarted, markOtherStarted, addWarnings_plex_started,
         addWarnings_maintenance, Trk.start, BackupState.init])

theorem C1_witness :
    (mainRun mainEnvCreateFail).exitCode = 1 ∧
    (mainRun mainEnvCreateFail).events =
      [FinalEvent.restartPlex, FinalEvent.restartOther, FinalEvent.checkRunning 1] ++
      (if ([("c1")] : List String).isEmpty then [FinalEvent.emergencyRestart] else []) ++
      (if (some 7 : Option Int).isSome then [FinalEvent.removeMaintenance] else []) ++
      [FinalEvent.notifyFinal, FinalEvent.exitProcess 1] := by
  have h := C1_snapshot_failure_finalization mainEnvCreateFail true [] ("tar failed")
    [("c1")] rfl rfl rfl rfl rfl (by simp [mainEnvCreateFail]) (by simp [mainEnvCreateFail]) rfl
  exact h

/-- C3 counterexample: the container-shutdown (STOP_WORKLOADS) stage has
no boundary handler in `main`: a `subprocess.TimeoutExpired` raised by the
container enumeration inside `ensure_all_containers_stopped` propagates
out of the stage and the staged sequence does not continue — the
BACKUP_CREATION and RCLONE_SYNC stages are never entered and no backup is
created, contradicting the claim that every exception raised inside
STOP_WORKLOADS is caught at the stage boundary and the sequence continues
with the following stage. -/
theorem C3_counterexample :
    ensure_all_containers_stopped dEnvRaising [("f1")] false DOCKER_FORCE_STOP_TIMEOUT =
      .error Exc.timeoutExpired ∧
    BackupStage.BACKUP_CREATION ∉ (mainRun mainEnvShutdownRaise).trk.stages ∧
    BackupStage.RCLONE_SYNC ∉ (mainRun mainEnvShutdownRaise).trk.stages ∧
    (mainRun mainEnvShutdownRaise).trk.st.backup_created = false ∧
    (mainRun mainEnvShutdownRaise).exitCode = 1 := by
  exact ⟨rfl, by decide, by decide, rfl, rfl⟩

/-- C3 (amended): a `BackupVerificationError` raised by the VERIFY stage
is caught at that stage's boundary, recorded as a RunState error, and the
staged sequence continues with SYNC; an exception raised inside one SYNC
attempt is caught by the retry loop, which proceeds with the next
attempt; but the STOP_WORKLOADS stage has no boundary handler: an
exception raised there unwinds to the orchestrator's top-level handler,
every later non-finalization stage is skipped, and (finalization having
run) the process exits with code 1. -/
theorem C3_amended_containment :
    (∀ (env : MainEnv) (b : Bool) (w : List String) (m : String) (summary : RcSummary),
      env.lock = .acquired → env.preflightOk = true →
      env.shutdownRes = .ok (b, w) → env.checkShutdown1 = false →
      env.createRes = .ok true → env.checkShutdown2 = false →
      env.verifyRes = .error (.backupVerificationError m) →
      env.checkShutdown3 = false → env.rcloneRes = .ok summary →
      (∃ s, (tryBody env Trk.start).2 = .completed s) ∧
      BackupStage.RCLONE_SYNC ∈ (tryBody env Trk.start).1.stages ∧
      ((("[") ++ BackupStage.BACKUP_VERIFICATION.label ++ ("] ") ++ m) ∈
        (tryBody env Trk.start).1.st.errors)) ∧
    (∀ (env : MainEnv) (e : Exc),
      env.lock = .acquired → env.preflightOk = true →
      env.shutdownRes = .error e →
      (tryBody env Trk.start).2 = .raised e ∧
      BackupStage.BACKUP_CREATION ∉ (tryBody env Trk.start).1.stages ∧
      (mainRun env).exitCode = 1) ∧
    (∀ (env : RcloneEnv) (m : String) (d d2 : Nat),
      env.attempt 1 = .raises m d →
      env.attempt 2 = .exits 0 d2 →
      env.shutdownAt 1 = false → env.shutdownAt 2 = false →
      ∃ e, run_rclone_sync_with_retry env false =
        .ok { status := .success, attempts := 2, elapsed := e }) := by
  refine ⟨?_, ?_, ?_⟩
  · intro env b w m summary hlock hpre hshut hcs1 hcreate hcs2 hverify hcs3 hrclone
    by_cases hpb : (!env.plexCompose.isEmpty && env.plexStartOk) = true <;>
      cases hst : summary.status <;>
        (refine ⟨?_, ?_, ?_⟩ <;>
          simp [tryBody, shutdownStage, createStage, verifyStage, syncStage, finishTry,
            hlock, hpre, hshut, hcs1, hcreate, hcs2, hverify, hcs3, hrclone, hst, hpb,
            ENABLE_RCLONE_UPLOAD,
            Trk.push, Trk.stages, Trk.start, BackupState.init, setStage, setMaintenance,
            setContainersStopped, addError, markCreated, markPlexStarted, markVerified,
            markRcloneCompleted, addWarnings_stage, addWarnings_errors,
            addWarnings_backup_created])
  · intro env e hlock hpre hshut
    have htb : tryBody env Trk.start =
        ((((Trk.start.push (setStage .PREFLIGHT)).push
            (setStage .MAINTENANCE_WINDOW)).push
            (setMaintenance env.maintenanceId)).push
            (setStage .CONTAINER_SHUTDOWN),
          .raised e) := by
      simp [tryBody, shutdownStage, hlock, hpre, hshut]
    refine ⟨?_, ?_, ?_⟩
    · rw [htb]
    · rw [htb]
      simp [Trk.stages, Trk.push, Trk.start, BackupState.init, setStage, setMaintenance]
    · have hcode : (mainRun env).exitCode =
          (finalize env (handleTop (tryBody env Trk.start).1 (tryBody env Trk.start).2).1
            (handleTop (tryBody env Trk.start).1 (tryBody env Trk.start).2).2).2.2 := rfl
      rw [hcode, finalize_exitCode, htb, handleTop_raised_false]
      rfl
  · intro env m d d2 h1 h2 hs1 hs2
    have hr := rcloneLoop_reaches env 2 d2 h2 RCLONE_MAX_RETRIES 1 RCLONE_RETRY_DELAY 0
      (by omega) (by decide)
      (fun i hi1 hi2 => by
        have hi : i = 1 := by omega
        subst hi
        exact Or.inr (Or.inr ⟨m, d, h1⟩))
      (fun i hi1 hi2 => by
        have hi : i = 1 ∨ i = 2 := by omega
        rcases hi with hi | hi <;> subst hi <;> assumption)
    unfold run_rclone_sync_with_retry
    simpa using hr

theorem C3_amended_witness :
    (∃ s, (tryBody mainEnvVerifyFail Trk.start).2 = .completed s) ∧
    BackupStage.RCLONE_SYNC ∈ (tryBody mainEnvVerifyFail Trk.start).1.stages ∧
    (tryBody mainEnvShutdownRaise Trk.start).2 = .raised .timeoutExpired ∧
    (mainRun mainEnvShutdownRaise).exitCode = 1 ∧
    (∃ e, run_rclone_sync_with_retry rcEnvRaisesFirst false =
      .ok { status := .success, attempts := 2, elapsed := e }) := by
  obtain ⟨ha1, ha2, _⟩ := C3_amended_containment.1 mainEnvVerifyFail true []
    ("decrypt failed") { status := .success, lastError := ("None") }
    rfl rfl rfl rfl rfl rfl rfl rfl rfl
  obtain ⟨hb1, _, hb3⟩ := C3_amended_containment.2.1 mainEnvShutdownRaise
    .timeoutExpired rfl rfl rfl
  have hc := C3_amended_containment.2.2 rcEnvRaisesFirst ("disk error") 4 0
    rfl rfl rfl rfl
  exact ⟨ha1, ha2, hb1, hb3, hc⟩

end BackupScript
